import Mathlib

/-!
# Verification of the SkillZage student-course client logic

Shallow embedding of the progress / quiz / access-gating / purchase logic
of the SkillZage repository, with theorems settling the specification
claims about it.

Sources embedded:
* `src/src/pages/CourseLearning.tsx` — `calculateProgress`,
  `markChapterAsCompleted`, `handleQuizComplete`, `hasCompletedStartQuiz`,
  `canAccessChapterContent`, and the access check in `fetchCourseData`.
* `src/src/pages/StudentDashboard.tsx` / `src/unnamed/part_000` —
  `fetchCourseProgress`, `handlePurchaseCourse`.
* `src/unnamed/part_004` (`QuizTaker`) — `handleAnswerChange`,
  `handleNext`, `handlePrevious`, `handleSubmitQuiz`, and the render-time
  gating (`isLastQuestion`, `canProceed`).

JavaScript objects used as string-keyed maps (`progress`, `quiz_attempts`,
`answers`) are embedded as association lists `List (String × α)` whose
key update preserves insertion order, as JS property assignment does.
Numbers are embedded as exact naturals/rationals; `Math.round` on a
non-negative quotient `a / b` is `⌊a/b + 1/2⌋`, computed on naturals as
`(2*a + b) / (2*b)`.
-/

namespace Skillzage

/-- Key update on a JS-object-as-association-list: overwrite the value at
the key in place when present, otherwise append the new binding at the end
(JS property assignment on objects, whose keys are unique). -/
def setKey {α : Type} (m : List (String × α)) (k : String) (v : α) :
    List (String × α) :=
  match m with
  | [] => [(k, v)]
  | (a, b) :: t => if a == k then (k, v) :: t else (a, b) :: setKey t k v

/-- `Math.round (a / b)` for naturals `a`, `b` with `b > 0`:
round-half-up computed without leaving ℕ. -/
def jsRound (a b : Nat) : Nat := (2 * a + b) / (2 * b)

/-- `Course` row (interface in `StudentDashboard.tsx`). -/
structure Course where
  id : String
  title : String
  description : String
  price : Int
  currency : String
  ctype : String             -- `type: 'public' | 'university'`
  category : String
  thumbnail_url : Option String
  university_id : Option String
  is_active : Bool
  is_free : Bool
  deriving Repr, DecidableEq

/-- `Chapter` row (interface in `CourseLearning.tsx`). -/
structure Chapter where
  id : String
  title : String
  description : String
  content : String
  video_url : String
  order_index : Nat
  is_preview : Bool
  has_start_quiz : Bool
  has_end_quiz : Bool
  pdf_attachments : List String
  deriving Repr, DecidableEq

/-- The `attemptData` object built in `handleQuizComplete`
(`CourseLearning.tsx` lines 306–311): score, pass flag, timestamp and the
`'start' | 'end'` classifier.  It carries no per-question answers. -/
structure QuizAttempt where
  score : Nat
  passed : Bool
  completed_at : String
  quiz_type : String
  deriving Repr, DecidableEq

/-- `Progress` row (interface in `CourseLearning.tsx`); `quiz_attempts`
is a nullable JS object keyed by quiz id. -/
structure Progress where
  id : String
  completed : Bool
  started_at : Option String
  completed_at : Option String
  quiz_attempts : Option (List (String × QuizAttempt))
  deriving Repr, DecidableEq

/-- `Quiz` row (interface in `CourseLearning.tsx` / `QuizTaker`). -/
structure Quiz where
  id : String
  title : String
  chapter_id : String
  is_start_quiz : Bool
  is_end_quiz : Bool
  passing_score : Nat
  deriving Repr, DecidableEq

/-- Question type: `'multiple_choice' | 'true_false'`. -/
inductive QuestionType where
  | multiple_choice
  | true_false
  deriving Repr, DecidableEq

/-- `QuizQuestion` row (interface in `QuizTaker`, `src/unnamed/part_004`). -/
structure QuizQuestion where
  id : String
  quiz_id : String
  question : String
  qtype : QuestionType
  options : List String
  correct_answer : String
  explanation : String
  order_index : Nat
  deriving Repr, DecidableEq

/-- `Profile` fields used by the embedded code paths. -/
structure Profile where
  user_id : String
  name : String
  email : String
  role : String
  university_id : Option String
  purchased_courses : List String
  deriving Repr, DecidableEq

/-- The client-side progress map `progress : Record<string, Progress>`
of `CourseLearning.tsx`, keyed by chapter id. -/
abbrev ProgressMap := List (String × Progress)

/-! ## Chapter-content access gate (`CourseLearning.tsx` 360–381) -/

/-- `hasCompletedStartQuiz` (`CourseLearning.tsx` 360–367): some attempt
in the chapter's `quiz_attempts` has `quiz_type === 'start' && passed`. -/
def hasCompletedStartQuiz (progress : ProgressMap) (chapterId : String) :
    Bool :=
  match progress.lookup chapterId with
  | none => false
  | some p =>
    match p.quiz_attempts with
    | none => false
    | some attempts =>
      attempts.any (fun kv => kv.2.quiz_type == "start" && kv.2.passed)

/-- `hasCompletedEndQuiz` (`CourseLearning.tsx` 369–376). -/
def hasCompletedEndQuiz (progress : ProgressMap) (chapterId : String) :
    Bool :=
  match progress.lookup chapterId with
  | none => false
  | some p =>
    match p.quiz_attempts with
    | none => false
    | some attempts =>
      attempts.any (fun kv => kv.2.quiz_type == "end" && kv.2.passed)

/-- `canAccessChapterContent` (`CourseLearning.tsx` 378–381). -/
def canAccessChapterContent (progress : ProgressMap) (chapter : Chapter) :
    Bool :=
  if !chapter.has_start_quiz then true
  else hasCompletedStartQuiz progress chapter.id

/-- The attempt collection of the chapter's progress record:
empty when there is no record or its `quiz_attempts` is null. -/
def attemptsOf (progress : ProgressMap) (chapterId : String) :
    List (String × QuizAttempt) :=
  ((progress.lookup chapterId).bind Progress.quiz_attempts).getD []

/-! ## Quiz scoring (`QuizTaker.handleSubmitQuiz`, part_004 68–81) -/

/-- The `answers` map of `QuizTaker`, keyed by question id. -/
abbrev AnswerMap := List (String × String)

/-- The `correctAnswers` counter of `handleSubmitQuiz` (part_004 72–77):
a question counts when `answers[question.id] === question.correct_answer`. -/
def countCorrect (questions : List QuizQuestion) (answers : AnswerMap) :
    Nat :=
  questions.countP
    (fun q => answers.lookup q.id == some q.correct_answer)

/-- `calculatedScore = Math.round((correctAnswers / questions.length) * 100)`
(part_004 line 79). -/
def calculatedScore (questions : List QuizQuestion) (answers : AnswerMap) :
    Nat :=
  jsRound (100 * countCorrect questions answers) questions.length

/-- `passed = calculatedScore >= quiz.passing_score` (part_004 line 80). -/
def quizPassed (quiz : Quiz) (questions : List QuizQuestion)
    (answers : AnswerMap) : Bool :=
  quiz.passing_score ≤ calculatedScore questions answers

/-! ## Progress aggregation
(`CourseLearning.tsx` 166–172 `calculateProgress`;
 `StudentDashboard.tsx` 135–168 `fetchCourseProgress`) -/

/-- Whether the progress map marks a chapter completed:
`progress[chapter.id]?.completed` (truthy check, line 168). -/
def chapterCompleted (progress : ProgressMap) (chapterId : String) : Bool :=
  match progress.lookup chapterId with
  | none => false
  | some p => p.completed

/-- `completedChapters` (`CourseLearning.tsx` 167–169). -/
def completedChapters (chapters : List Chapter) (progress : ProgressMap) :
    Nat :=
  (chapters.filter (fun ch => chapterCompleted progress ch.id)).length

/-- `calculateProgress` (`CourseLearning.tsx` 166–172): the completion
percentage, `Math.round((completed / total) * 100)`, or `0` when the
course has no chapters. -/
def calculateProgress (chapters : List Chapter) (progress : ProgressMap) :
    Nat :=
  if 0 < chapters.length then
    jsRound (100 * completedChapters chapters progress) chapters.length
  else 0

/-- The percentage computed per course by `fetchCourseProgress`
(`StudentDashboard.tsx` 155–157) from the already-counted row totals. -/
def completionPercentage (completedCount totalCount : Nat) : Nat :=
  if 0 < totalCount then jsRound (100 * completedCount) totalCount else 0

/-- The completion percentage as the spec words it, for comparison with
`calculateProgress`: `round(completed/total × 100)`, or `0` if the
chapter set is empty, using the mathematical rounding of rationals. -/
def percentageSpec (chapters : List Chapter) (progress : ProgressMap) :
    ℤ :=
  if chapters.length = 0 then 0
  else
    round ((completedChapters chapters progress : ℚ)
        / (chapters.length : ℚ) * 100)

/-! ## Course-page access check (`CourseLearning.tsx` 100–112) -/

/-- The `hasAccess` test of `fetchCourseData` (lines 101–102):
`profile.purchased_courses?.includes(courseId) || profile.role === 'admin'`. -/
def hasAccess (profile : Profile) (courseId : String) : Bool :=
  profile.purchased_courses.contains courseId || profile.role == "admin"

/-- `fetchCourseData` redirects to the dashboard (with an "Access Denied"
toast) exactly when `hasAccess` is false (lines 104–112). -/
def redirectsAway (profile : Profile) (courseId : String) : Bool :=
  !hasAccess profile courseId

/-- Modelled from the spec's glossary, for comparison with `hasAccess`:
"**Entitlement**: a user's right to access a course's content (via
purchase or university assignment)", plus the privileged admin role.
A university assignment means the course's owning university equals the
profile's university. -/
def entitledSpec (profile : Profile) (course : Course) : Bool :=
  profile.purchased_courses.contains course.id
    || profile.role == "admin"
    || (course.university_id.isSome
          && course.university_id == profile.university_id)

/-! ## Free-course purchase
(`handlePurchaseCourse`, `StudentDashboard.tsx` / part_000 192–227).

The persistent state touched is the profile row's `purchased_courses`
column.  The backend `update` call may fail; `ok` tells whether it
succeeded (on failure the `catch` block only emits an error toast). -/

/-- `handlePurchaseCourse`: returns the profile state after the call and
the toast titles emitted.  Free course, success: the course id is appended
to `purchased_courses` (line 196, no duplicate guard) and persisted.
Free course, failure: profile unchanged, error toast.  Priced course: the
stub branch (lines 220–226) changes nothing and only toasts. -/
def handlePurchaseCourse (ok : Bool) (profile : Profile)
    (courseId : String) (course : Course) : Profile × List String :=
  if course.is_free then
    if ok then
      ({ profile with
          purchased_courses := profile.purchased_courses ++ [courseId] },
        ["Course Added!"])
    else (profile, ["Error"])
  else (profile, ["Payment Integration"])

/-! ## Marking a chapter completed
(`markChapterAsCompleted`, `CourseLearning.tsx` 207–255). -/

/-- The local progress entry written on success (lines 227–234):
`{...prev[chapterId], completed_at: now, completed: true}`; when there was
no previous entry the spread of `undefined` leaves the other fields unset. -/
def completedEntry (prev : Option Progress) (now : String) : Progress :=
  match prev with
  | some p => { p with completed_at := some now, completed := true }
  | none =>
    { id := "", completed := true, started_at := none,
      completed_at := some now, quiz_attempts := none }

/-- `markChapterAsCompleted`: on backend success the local progress map
gets the completed entry at the chapter key and a success toast is shown;
on failure the map is unchanged and an error toast is shown (247–254). -/
def markChapterAsCompleted (ok : Bool) (progress : ProgressMap)
    (chapterId : String) (now : String) : ProgressMap × List String :=
  if ok then
    (setKey progress chapterId
        (completedEntry (progress.lookup chapterId) now),
      ["Chapter Completed!"])
  else (progress, ["Error"])

/-! ## Quiz-attempt persistence -/

/-- The attempt object saved by `QuizTaker.handleSubmitQuiz`
(part_004 97–105): it carries the quiz id, score, pass flag, the
per-question `answers` map, a timestamp and the start/end flags. -/
structure TakerAttempt where
  quiz_id : String
  score : Nat
  passed : Bool
  answers : AnswerMap
  completed_at : String
  is_start_quiz : Bool
  is_end_quiz : Bool
  deriving Repr, DecidableEq

/-- The `quiz_attempts` column as `QuizTaker` finds it: absent/null, an
array of attempts (what `QuizTaker` itself writes), or a quiz-id-keyed
object (what `handleQuizComplete` writes). -/
inductive AttemptsVal where
  | null
  | arr (l : List TakerAttempt)
  | obj (m : List (String × QuizAttempt))
  deriving Repr, DecidableEq

/-- `updatedQuizAttempts` in `QuizTaker.handleSubmitQuiz` (part_004
107–114): append to an existing array; replace anything that is not an
array (including an object of previous `handleQuizComplete` attempts) by
the one-element array. -/
def updatedQuizAttempts (prev : AttemptsVal) (a : TakerAttempt) :
    List TakerAttempt :=
  match prev with
  | AttemptsVal.arr l => l ++ [a]
  | AttemptsVal.obj _ => [a]
  | AttemptsVal.null => [a]

/-- The `attemptData` built in `handleQuizComplete`
(`CourseLearning.tsx` 306–311). -/
def attemptData (quiz : Quiz) (score : Nat) (passed : Bool)
    (now : String) : QuizAttempt :=
  { score := score, passed := passed, completed_at := now,
    quiz_type := if quiz.is_start_quiz then "start" else "end" }

/-- The quiz-attempt map written by `handleQuizComplete` (lines 304–313):
`quizAttempts = currentProgress?.quiz_attempts || {}` followed by
`quizAttempts[currentQuiz.id] = attemptData` — JS property assignment,
which overwrites any previous attempt stored under the same quiz id. -/
def handleQuizCompleteAttempts (prev : Option (List (String × QuizAttempt)))
    (quiz : Quiz) (score : Nat) (passed : Bool) (now : String) :
    List (String × QuizAttempt) :=
  setKey (prev.getD []) quiz.id (attemptData quiz score passed now)

/-- `handleQuizComplete` effect on the local progress map
(`CourseLearning.tsx` 290–358): on success the chapter's entry gets the
updated attempt map; on failure the map is unchanged and an error toast
is shown (350–357). -/
def handleQuizComplete (ok : Bool) (progress : ProgressMap)
    (chapter : Chapter) (quiz : Quiz) (score : Nat) (passed : Bool)
    (now : String) : ProgressMap × List String :=
  if ok then
    (setKey progress chapter.id
        (match progress.lookup chapter.id with
          | some p =>
            { p with
                quiz_attempts := some (handleQuizCompleteAttempts
                  p.quiz_attempts quiz score passed now) }
          | none =>
            { id := "", completed := false, started_at := none,
              completed_at := none,
              quiz_attempts := some (handleQuizCompleteAttempts
                none quiz score passed now) }),
      [if passed then "Quiz Passed!" else "Quiz Completed"])
  else (progress, ["Error"])

/-! ## Quiz navigation state machine (`QuizTaker`, part_004 38–271)

Component state: `currentQuestionIndex` (starts at 0), the `answers` map
(starts empty) and `showResults` (set by submit).  The user can only
trigger a handler through an enabled, rendered control:
* "Previous" is rendered always, disabled when the index is 0;
* "Next" is rendered only when not on the last question, disabled unless
  `canProceed` (the current question has a truthy selected answer);
* "Submit Quiz" is rendered only on the last question, disabled unless
  `canProceed`;
* the radio group offers exactly the current question option values
  (its `options` for multiple choice, `True`/`False` otherwise).
After submit the results card replaces the question card, so no further
quiz action is available. -/

/-- JS truthiness of `answers[questionId]`: an absent key or the empty
string is falsy. -/
def jsTruthy (s : Option String) : Bool :=
  match s with
  | none => false
  | some v => v ≠ ""

/-- The `QuizTaker` component state. -/
structure QuizState where
  currentQuestionIndex : Nat
  answers : AnswerMap
  showResults : Bool
  deriving Repr, DecidableEq

/-- Initial state (part_004 lines 40–42). -/
def initQuizState : QuizState :=
  { currentQuestionIndex := 0, answers := [], showResults := false }

/-- `isLastQuestion = currentQuestionIndex === questions.length - 1`
(part_004 line 187). -/
def isLastQuestion (questions : List QuizQuestion) (s : QuizState) : Bool :=
  s.currentQuestionIndex == questions.length - 1

/-- `canProceed = answers[currentQuestion.id]` (part_004 line 188),
used as a truthy guard on the Next and Submit buttons. -/
def canProceed (questions : List QuizQuestion) (s : QuizState) : Bool :=
  match questions[s.currentQuestionIndex]? with
  | some q => jsTruthy (s.answers.lookup q.id)
  | none => false

/-- The user-triggerable quiz actions. -/
inductive QuizAction where
  | next
  | previous
  | selectAnswer (value : String)
  | submit
  deriving Repr, DecidableEq

/-- The answer values the radio group offers for a question
(part_004 217–237). -/
def answerOptions (q : QuizQuestion) : List String :=
  match q.qtype with
  | QuestionType.multiple_choice => q.options
  | QuestionType.true_false => ["True", "False"]

/-- Whether the control for an action is rendered and enabled
(part_004 242–266; after submit the results card is shown instead,
part_004 147–181). -/
def actionEnabled (questions : List QuizQuestion) (s : QuizState)
    (a : QuizAction) : Bool :=
  if s.showResults then false
  else
    match a with
    | QuizAction.next =>
        !isLastQuestion questions s && canProceed questions s
    | QuizAction.previous => s.currentQuestionIndex != 0
    | QuizAction.selectAnswer v =>
        match questions[s.currentQuestionIndex]? with
        | some q => (answerOptions q).contains v
        | none => false
    | QuizAction.submit =>
        isLastQuestion questions s && canProceed questions s

/-- The handlers: `handleNext` (56–60), `handlePrevious` (62–66),
`handleAnswerChange` for the current question (49–54, 215), and
`handleSubmitQuiz` setting `showResults` (83). -/
def applyAction (questions : List QuizQuestion) (s : QuizState)
    (a : QuizAction) : QuizState :=
  match a with
  | QuizAction.next =>
      if s.currentQuestionIndex < questions.length - 1 then
        { s with currentQuestionIndex := s.currentQuestionIndex + 1 }
      else s
  | QuizAction.previous =>
      if 0 < s.currentQuestionIndex then
        { s with currentQuestionIndex := s.currentQuestionIndex - 1 }
      else s
  | QuizAction.selectAnswer v =>
      match questions[s.currentQuestionIndex]? with
      | some q => { s with answers := setKey s.answers q.id v }
      | none => s
  | QuizAction.submit => { s with showResults := true }

/-- One user interaction: a disabled or unrendered control does nothing. -/
def stepQuiz (questions : List QuizQuestion) (s : QuizState)
    (a : QuizAction) : QuizState :=
  if actionEnabled questions s a then applyAction questions s a else s

/-- The state after a sequence of user interactions from the initial
state. -/
def runQuiz (questions : List QuizQuestion) (acts : List QuizAction) :
    QuizState :=
  acts.foldl (stepQuiz questions) initQuizState

/-! ## Concrete sample data (used to instantiate the theorems) -/

/-- A free public course. -/
def freeCourse : Course :=
  { id := "c1", title := "Intro", description := "", price := 0,
    currency := "USD", ctype := "public", category := "general",
    thumbnail_url := none, university_id := none, is_active := true,
    is_free := true }

/-- A priced public course. -/
def paidCourse : Course :=
  { freeCourse with id := "c2", price := 49, is_free := false }

/-- A university-owned course of university `u1`. -/
def uniCourse : Course :=
  { freeCourse with
    id := "c3", ctype := "university",
    university_id := some "u1", is_free := false }

/-- A student who already owns course `c1`. -/
def studentProfile : Profile :=
  { user_id := "usr1", name := "Sam", email := "sam@example.com",
    role := "student", university_id := some "u1",
    purchased_courses := ["c1"] }

/-- A student of university `u1` with no purchased courses. -/
def uniStudent : Profile :=
  { studentProfile with user_id := "usr2", purchased_courses := [] }

/-- A start quiz with passing score 75. -/
def startQuiz : Quiz :=
  { id := "q1", title := "Start quiz", chapter_id := "ch1",
    is_start_quiz := true, is_end_quiz := false, passing_score := 75 }

/-- A failed earlier attempt at `startQuiz`. -/
def oldAttempt : QuizAttempt :=
  { score := 40, passed := false, completed_at := "t1",
    quiz_type := "start" }

/-- A true/false question with the given id, correct answer `True`. -/
def mkTF (i : String) : QuizQuestion :=
  { id := i, quiz_id := "q1", question := "?",
    qtype := QuestionType.true_false, options := [],
    correct_answer := "True", explanation := "", order_index := 0 }

/-- A four-question quiz (the example of the spec). -/
def fourQuestions : List QuizQuestion :=
  [mkTF "a", mkTF "b", mkTF "c", mkTF "d"]

/-- Answers getting three of the four questions right. -/
def threeCorrect : AnswerMap :=
  [("a", "True"), ("b", "True"), ("c", "True"), ("d", "False")]

/-- A two-question quiz for the navigation witnesses. -/
def twoQuestions : List QuizQuestion := [mkTF "a", mkTF "b"]

/-- Interactions answering both questions of `twoQuestions` in order. -/
def answerBoth : List QuizAction :=
  [QuizAction.selectAnswer "True", QuizAction.next,
    QuizAction.selectAnswer "True"]

/-- A content chapter with the given id and no quiz gate. -/
def mkChapter (i : String) : Chapter :=
  { id := i, title := "", description := "", content := "",
    video_url := "", order_index := 0, is_preview := false,
    has_start_quiz := false, has_end_quiz := false,
    pdf_attachments := [] }

/-- A five-chapter course (the example of the spec). -/
def fiveChapters : List Chapter :=
  [mkChapter "h1", mkChapter "h2", mkChapter "h3", mkChapter "h4",
    mkChapter "h5"]

/-- A completed progress record. -/
def doneProgress : Progress :=
  { id := "p", completed := true, started_at := some "t0",
    completed_at := some "t1", quiz_attempts := none }

/-- Progress marking the first three of `fiveChapters` completed. -/
def threeDone : ProgressMap :=
  [("h1", doneProgress), ("h2", doneProgress), ("h3", doneProgress)]

/-! ## Helper lemmas -/

theorem lookup_setKey_self {α : Type} (m : List (String × α)) (k : String)
    (v : α) : (setKey m k v).lookup k = some v := by
  induction m with
  | nil => simp [setKey, List.lookup]
  | cons p t ih =>
    obtain ⟨a, b⟩ := p
    by_cases h : a = k
    · subst h
      simp [setKey, List.lookup]
    · have h1 : (a == k) = false := by simpa using h
      have h2 : (k == a) = false := by simpa using fun e => h e.symm
      simp [setKey, List.lookup, h1, h2, ih]

theorem lookup_setKey_ne {α : Type} (m : List (String × α)) (k : String)
    (v : α) (x : String) (hx : x ≠ k) :
    (setKey m k v).lookup x = m.lookup x := by
  induction m with
  | nil =>
    have hxk : (x == k) = false := by simpa using hx
    simp [setKey, List.lookup, hxk]
  | cons p t ih =>
    obtain ⟨a, b⟩ := p
    by_cases h : a = k
    · subst h
      have hxk : (x == a) = false := by simpa using hx
      simp [setKey, List.lookup, hxk]
    · have h1 : (a == k) = false := by simpa using h
      by_cases hxa : x = a
      · subst hxa
        simp [setKey, List.lookup, h1]
      · have h2 : (x == a) = false := by simpa using hxa
        simp [setKey, List.lookup, h1, h2, ih]

theorem jsRound_eq_round (a b : Nat) (hb : 0 < b) :
    (jsRound a b : ℤ) = round ((a : ℚ) / (b : ℚ)) := by
  have hbQ : (0 : ℚ) < (b : ℚ) := by exact_mod_cast hb
  have hbne : (b : ℚ) ≠ 0 := ne_of_gt hbQ
  rw [round_eq]
  have h1 : (a : ℚ) / (b : ℚ) + 1 / 2
      = ((2 * a + b : ℕ) : ℚ) / ((2 * b : ℕ) : ℚ) := by
    push_cast
    field_simp
    ring
  rw [h1, ← Int.natCast_floor_eq_floor (by positivity),
    Nat.floor_div_eq_div]
  rfl

theorem jsRound_le_100 (k n : Nat) (hk : k ≤ n) (hn : 0 < n) :
    jsRound (100 * k) n ≤ 100 := by
  unfold jsRound
  have h2 : (2 * (100 * k) + n) / (2 * n) < 101 := by
    rw [Nat.div_lt_iff_lt_mul (by omega)]
    omega
  omega

/-! ## Claim theorems -/

/-- C1: Chapter-content access gate: for every chapter and every progress
map, the chapter video/text content is visible if and only if the chapter
has no start-quiz requirement (`has_start_quiz = false`), or the attempt
collection of the chapter progress record contains at least one attempt
tagged start-type (`quiz_type = "start"`) with `passed = true`; in
particular (by this equivalence) access is false whenever
`has_start_quiz = true` and no such passed start attempt exists. -/
theorem chapter_access_gate (progress : ProgressMap) (chapter : Chapter) :
    canAccessChapterContent progress chapter = true ↔
      (chapter.has_start_quiz = false ∨
        ∃ kv ∈ attemptsOf progress chapter.id,
          kv.2.quiz_type = "start" ∧ kv.2.passed = true) := by
  cases hs : chapter.has_start_quiz with
  | false => simp [canAccessChapterContent, hs]
  | true =>
    simp only [canAccessChapterContent, hs, Bool.not_true,
      Bool.false_eq_true, if_false, Bool.true_eq_false, false_or]
    unfold hasCompletedStartQuiz attemptsOf
    cases hl : progress.lookup chapter.id with
    | none => simp
    | some p =>
      cases hq : p.quiz_attempts with
      | none => simp [hq]
      | some l =>
        simp [hq, List.any_eq_true, Bool.and_eq_true, beq_iff_eq]

/-- C2: Quiz scoring and pass determination: for every quiz with `N ≥ 1`
questions of which `K` are answered with the question correct answer, the
submitted score equals `round(100 * K / N)` (mathematical rounding, half
up), and the attempt is marked passed if and only if
`score ≥ quiz.passing_score`. -/
theorem quiz_scoring (quiz : Quiz) (questions : List QuizQuestion)
    (answers : AnswerMap) (h : 1 ≤ questions.length) :
    (calculatedScore questions answers : ℤ)
        = round ((100 * (countCorrect questions answers : ℚ))
            / (questions.length : ℚ))
      ∧ (quizPassed quiz questions answers = true ↔
          quiz.passing_score ≤ calculatedScore questions answers) := by
  constructor
  · unfold calculatedScore
    rw [jsRound_eq_round _ _ (by omega)]
    congr 1
    push_cast
    ring
  · simp [quizPassed]

/-- Witness for C2, the example of the spec: a quiz with 4 questions,
passing score 75 and 3 correct answers scores 75 and passes. -/
theorem quiz_scoring_witness :
    1 ≤ fourQuestions.length
      ∧ calculatedScore fourQuestions threeCorrect = 75
      ∧ countCorrect fourQuestions threeCorrect = 3
      ∧ ((calculatedScore fourQuestions threeCorrect : ℤ)
            = round ((100 * (countCorrect fourQuestions threeCorrect : ℚ))
                / (fourQuestions.length : ℚ))
          ∧ (quizPassed startQuiz fourQuestions threeCorrect = true ↔
              startQuiz.passing_score
                ≤ calculatedScore fourQuestions threeCorrect)) :=
  ⟨by decide, by decide, by decide,
    quiz_scoring startQuiz fourQuestions threeCorrect (by decide)⟩

/-- C3: Progress aggregation: for every chapter set and progress map,
the completion percentage of the code equals
`round(100 × completed / total)` when the chapter set is non-empty
(stated as equality with `percentageSpec`, which also returns 0 on the
empty set), is 0 on the empty set, lies in `[0, 100]` (a natural number
bounded by 100), and each chapter contributes at most once
(`completedChapters ≤ length`). -/
theorem progress_aggregation (chapters : List Chapter)
    (progress : ProgressMap) :
    (calculateProgress chapters progress : ℤ)
        = percentageSpec chapters progress
      ∧ calculateProgress chapters progress ≤ 100
      ∧ (chapters = [] → calculateProgress chapters progress = 0)
      ∧ completedChapters chapters progress ≤ chapters.length := by
  have hcc : completedChapters chapters progress ≤ chapters.length :=
    List.length_filter_le _ _
  refine ⟨?_, ?_, ?_, hcc⟩
  · by_cases h : chapters.length = 0
    · simp [calculateProgress, percentageSpec, h]
    · have hp : 0 < chapters.length := Nat.pos_of_ne_zero h
      simp only [calculateProgress, percentageSpec, hp, if_true, h,
        if_false]
      rw [jsRound_eq_round _ _ hp]
      congr 1
      push_cast
      ring
  · by_cases h : chapters.length = 0
    · simp [calculateProgress, h]
    · have hp : 0 < chapters.length := Nat.pos_of_ne_zero h
      simp only [calculateProgress, hp, if_true]
      exact jsRound_le_100 _ _ hcc hp
  · intro he
    subst he
    simp [calculateProgress]

/-- Witness for C3: the five-chapter example of the spec (3 of 5
completed gives 60, within bounds) and the empty chapter set gives 0. -/
theorem progress_aggregation_witness :
    calculateProgress [] [] = 0
      ∧ calculateProgress fiveChapters threeDone ≤ 100
      ∧ calculateProgress fiveChapters threeDone = 60 :=
  ⟨(progress_aggregation [] []).2.2.1 rfl,
    (progress_aggregation fiveChapters threeDone).2.1,
    by decide⟩

/-- Counterexample to C4: `studentProfile` already owns `"c1"`
(a double-submit situation); invoking the purchase operation for the free
course `"c1"` leaves the purchased list containing `"c1"` twice, not
exactly once — `handlePurchaseCourse` appends without a duplicate guard. -/
theorem free_purchase_cex :
    "c1" ∈ studentProfile.purchased_courses
      ∧ (handlePurchaseCourse true studentProfile "c1"
          freeCourse).1.purchased_courses = ["c1", "c1"]
      ∧ ¬ ((handlePurchaseCourse true studentProfile "c1"
            freeCourse).1.purchased_courses.count "c1" = 1) := by
  decide

/-- C4 (amended): for every profile and free course, a successful
purchase appends the course id to the end of the purchased list, so the
occurrence count of that id grows by exactly one; the list contains the
id exactly once only when it was not already present (there is no
double-submit guard). -/
theorem free_purchase_appends (profile : Profile) (courseId : String)
    (course : Course) (h : course.is_free = true) :
    (handlePurchaseCourse true profile courseId
          course).1.purchased_courses
        = profile.purchased_courses ++ [courseId]
      ∧ (handlePurchaseCourse true profile courseId
            course).1.purchased_courses.count courseId
          = profile.purchased_courses.count courseId + 1
      ∧ (courseId ∉ profile.purchased_courses →
          (handlePurchaseCourse true profile courseId
              course).1.purchased_courses.count courseId = 1) := by
  refine ⟨by simp [handlePurchaseCourse, h], ?_, ?_⟩
  · simp [handlePurchaseCourse, h]
  · intro hmem
    simp [handlePurchaseCourse, h, List.count_eq_zero.mpr hmem]

/-- Witness for C4 (amended): a student owning nothing gets the free
course `"c1"` exactly once. -/
theorem free_purchase_appends_witness :
    freeCourse.is_free = true
      ∧ "c1" ∉ uniStudent.purchased_courses
      ∧ (handlePurchaseCourse true uniStudent "c1"
          freeCourse).1.purchased_courses.count "c1" = 1 :=
  ⟨by decide, by decide,
    (free_purchase_appends uniStudent "c1" freeCourse (by decide)).2.2
      (by decide)⟩

/-- Counterexample to C5: `uniStudent` is entitled to `uniCourse` by
university assignment (in the sense of the spec glossary, formalised by
`entitledSpec`), yet loading the course-learning page redirects away,
because `fetchCourseData` checks only the purchased list and the admin
role.  This refutes the claimed equivalence "redirects if and only if no
entitlement". -/
theorem course_access_cex :
    entitledSpec uniStudent uniCourse = true
      ∧ redirectsAway uniStudent uniCourse.id = true := by
  decide

/-- C5 (amended): loading the course-learning page redirects the user
away (to the dashboard, with a notification) if and only if the course id
is not in the profile purchased list and the profile role is not
`admin`; entitlement via university assignment alone does not prevent
the redirect. -/
theorem course_access_redirect (profile : Profile) (courseId : String) :
    redirectsAway profile courseId = true ↔
      (courseId ∉ profile.purchased_courses ∧ profile.role ≠ "admin") := by
  simp [redirectsAway, hasAccess, not_or, List.elem_iff]

/-- Counterexample to C6: submitting the same quiz again does not append
another attempt in `handleQuizComplete`: the previous attempt stored
under the quiz id is overwritten and removed.  Resubmitting `startQuiz`
over a record holding `oldAttempt` yields a one-element collection no
longer containing the old attempt. -/
theorem quiz_attempt_overwrite_cex :
    handleQuizCompleteAttempts (some [("q1", oldAttempt)]) startQuiz 90
          true "t2"
        = [("q1", attemptData startQuiz 90 true "t2")]
      ∧ ("q1", oldAttempt) ∉
          handleQuizCompleteAttempts (some [("q1", oldAttempt)])
            startQuiz 90 true "t2"
      ∧ (handleQuizCompleteAttempts (some [("q1", oldAttempt)]) startQuiz
            90 true "t2").length = 1 := by
  decide

/-- C6 (amended): for every quiz submission an attempt record carrying
the score, the pass flag, a timestamp and the start/end classifier is
merged into the progress record of the chapter keyed on (user, chapter);
in `handleQuizComplete` the attempts are keyed by quiz id, so the new
attempt is recorded under the quiz id, submitting the same quiz again
overwrites that entry, and attempts recorded under other quiz ids are
preserved (the attempt record of this path carries no per-question
answers); the separate `QuizTaker` save path appends its attempt — which
does carry the answers — to an existing attempt array. -/
theorem quiz_attempt_persistence (prev : List (String × QuizAttempt))
    (quiz : Quiz) (score : Nat) (passed : Bool) (now k : String)
    (hk : k ≠ quiz.id) :
    (handleQuizCompleteAttempts (some prev) quiz score passed
          now).lookup quiz.id
        = some (attemptData quiz score passed now)
      ∧ (handleQuizCompleteAttempts (some prev) quiz score passed
            now).lookup k
          = prev.lookup k
      ∧ (∀ (l : List TakerAttempt) (a : TakerAttempt),
          updatedQuizAttempts (AttemptsVal.arr l) a = l ++ [a]) := by
  refine ⟨?_, ?_, fun l a => rfl⟩
  · exact lookup_setKey_self _ _ _
  · exact lookup_setKey_ne _ _ _ _ hk

/-- Witness for C6 (amended): resubmitting `startQuiz` records the new
attempt under `"q1"` and leaves an attempt under `"q2"` unchanged. -/
theorem quiz_attempt_persistence_witness :
    ("q2" : String) ≠ startQuiz.id
      ∧ (handleQuizCompleteAttempts
            (some [("q1", oldAttempt), ("q2", oldAttempt)]) startQuiz 90
            true "t2").lookup startQuiz.id
          = some (attemptData startQuiz 90 true "t2")
      ∧ (handleQuizCompleteAttempts
            (some [("q1", oldAttempt), ("q2", oldAttempt)]) startQuiz 90
            true "t2").lookup "q2"
          = some oldAttempt :=
  ⟨by decide,
    (quiz_attempt_persistence [("q1", oldAttempt), ("q2", oldAttempt)]
        startQuiz 90 true "t2" "q2" (by decide)).1,
    by
      rw [(quiz_attempt_persistence [("q1", oldAttempt),
          ("q2", oldAttempt)] startQuiz 90 true "t2" "q2"
          (by decide)).2.1]
      decide⟩

/-- C7: Priced-course purchase is a stub: for every course with
`is_free = false`, invoking the purchase operation changes no state —
the profile (and its purchased-course list) is returned unchanged — and
only a "Payment Integration" notification is emitted, whether or not the
backend would have succeeded. -/
theorem paid_purchase_stub (ok : Bool) (profile : Profile)
    (courseId : String) (course : Course) (h : course.is_free = false) :
    handlePurchaseCourse ok profile courseId course
      = (profile, ["Payment Integration"]) := by
  simp [handlePurchaseCourse, h]

/-- Witness for C7: buying the priced course `paidCourse` leaves
`studentProfile` unchanged and only toasts. -/
theorem paid_purchase_stub_witness :
    paidCourse.is_free = false
      ∧ handlePurchaseCourse true studentProfile "c2" paidCourse
          = (studentProfile, ["Payment Integration"]) :=
  ⟨by decide, paid_purchase_stub true studentProfile "c2" paidCourse
    (by decide)⟩

/-- C8: Error atomicity: for every persistence operation (marking a
chapter completed, saving a quiz attempt, adding a free course), when the
backend call fails the previously held local state — the progress map or
the profile purchased list — is returned unchanged, and exactly one
user-facing notification is emitted.  Each operation is a total Lean
function, so no failure terminates the embedded model. -/
theorem error_atomicity (pm : ProgressMap) (chapterId now : String)
    (chapter : Chapter) (quiz : Quiz) (score : Nat) (passed : Bool)
    (profile : Profile) (courseId : String) (course : Course) :
    markChapterAsCompleted false pm chapterId now = (pm, ["Error"])
      ∧ handleQuizComplete false pm chapter quiz score passed now
          = (pm, ["Error"])
      ∧ (handlePurchaseCourse false profile courseId course).1 = profile
      ∧ (handlePurchaseCourse false profile courseId course).2.length
          = 1 := by
  refine ⟨rfl, rfl, ?_, ?_⟩
  · cases h : course.is_free <;> simp [handlePurchaseCourse, h]
  · cases h : course.is_free <;> simp [handlePurchaseCourse, h]

theorem stepQuiz_idx_lt (questions : List QuizQuestion) (s : QuizState)
    (a : QuizAction) (h : s.currentQuestionIndex < questions.length) :
    (stepQuiz questions s a).currentQuestionIndex < questions.length := by
  unfold stepQuiz
  by_cases he : actionEnabled questions s a = true
  · simp only [he, if_true]
    cases a with
    | next =>
      simp only [applyAction]
      split_ifs with hg
      · simp only []
        omega
      · exact h
    | previous =>
      simp only [applyAction]
      split_ifs with hg
      · simp only []
        omega
      · exact h
    | selectAnswer v =>
      simp only [applyAction]
      cases hq : questions[s.currentQuestionIndex]? with
      | none => exact h
      | some q => exact h
    | submit => exact h
  · simp only [he, if_false]
    exact h

theorem runQuiz_idx_lt (questions : List QuizQuestion)
    (hne : questions ≠ []) (acts : List QuizAction) :
    (runQuiz questions acts).currentQuestionIndex < questions.length := by
  have h0 : initQuizState.currentQuestionIndex < questions.length := by
    simpa [initQuizState] using List.length_pos.mpr hne
  suffices H : ∀ (l : List QuizAction) (s : QuizState),
      s.currentQuestionIndex < questions.length →
        (l.foldl (stepQuiz questions) s).currentQuestionIndex
          < questions.length by
    exact H acts _ h0
  intro l
  induction l with
  | nil => intro s hs; simpa using hs
  | cons a t ih =>
    intro s hs
    exact ih _ (stepQuiz_idx_lt questions s a hs)

/-- C9: Quiz navigation state machine: for every quiz with at least one
question, the flow starts at question index 0; in every reachable state
the index stays within `[0, N-1]`; an enabled Next changes the index by
exactly `+1` and is enabled only when the current question has a selected
answer; an enabled Previous changes the index by exactly `-1`; and Submit
is enabled only at the last question (index `N-1`). -/
theorem quiz_navigation (questions : List QuizQuestion)
    (hne : questions ≠ []) :
    (runQuiz questions []).currentQuestionIndex = 0
      ∧ (∀ acts, (runQuiz questions acts).currentQuestionIndex
          ≤ questions.length - 1)
      ∧ (∀ acts,
          actionEnabled questions (runQuiz questions acts) QuizAction.next
              = true →
            canProceed questions (runQuiz questions acts) = true
              ∧ (stepQuiz questions (runQuiz questions acts)
                    QuizAction.next).currentQuestionIndex
                  = (runQuiz questions acts).currentQuestionIndex + 1)
      ∧ (∀ s : QuizState,
          actionEnabled questions s QuizAction.previous = true →
            (stepQuiz questions s
                  QuizAction.previous).currentQuestionIndex + 1
              = s.currentQuestionIndex)
      ∧ (∀ s : QuizState,
          actionEnabled questions s QuizAction.submit = true →
            s.currentQuestionIndex = questions.length - 1) := by
  have hN : 0 < questions.length := List.length_pos.mpr hne
  refine ⟨rfl, ?_, ?_, ?_, ?_⟩
  · intro acts
    have := runQuiz_idx_lt questions hne acts
    omega
  · intro acts h
    have hidx := runQuiz_idx_lt questions hne acts
    have hsr : (runQuiz questions acts).showResults = false := by
      by_contra hc
      rw [Bool.not_eq_false] at hc
      simp [actionEnabled, hc] at h
    rw [actionEnabled, hsr] at h
    simp only [Bool.false_eq_true, if_false, Bool.and_eq_true,
      Bool.not_eq_true'] at h
    obtain ⟨hlast, hcp⟩ := h
    refine ⟨hcp, ?_⟩
    have hne1 : (runQuiz questions acts).currentQuestionIndex
        ≠ questions.length - 1 := by
      intro he
      rw [isLastQuestion] at hlast
      simp [he] at hlast
    have hg : (runQuiz questions acts).currentQuestionIndex
        < questions.length - 1 := by omega
    rw [stepQuiz]
    rw [actionEnabled, hsr]
    simp only [Bool.false_eq_true, if_false, isLastQuestion]
    have hbeq : ((runQuiz questions acts).currentQuestionIndex
        == questions.length - 1) = false := by
      simpa using hne1
    rw [hbeq]
    simp only [Bool.not_false, Bool.true_and, hcp, if_true]
    rw [applyAction]
    simp [hg]
  · intro s h
    have hsr : s.showResults = false := by
      by_contra hc
      rw [Bool.not_eq_false] at hc
      simp [actionEnabled, hc] at h
    rw [actionEnabled, hsr] at h
    simp only [Bool.false_eq_true, if_false] at h
    have hne0 : s.currentQuestionIndex ≠ 0 := by simpa using h
    rw [stepQuiz, actionEnabled, hsr]
    simp only [Bool.false_eq_true, if_false, h, if_true]
    rw [applyAction]
    have hp : 0 < s.currentQuestionIndex := Nat.pos_of_ne_zero hne0
    simp only [hp, if_true]
    omega
  · intro s h
    have hsr : s.showResults = false := by
      by_contra hc
      rw [Bool.not_eq_false] at hc
      simp [actionEnabled, hc] at h
    rw [actionEnabled, hsr] at h
    simp only [Bool.false_eq_true, if_false, Bool.and_eq_true] at h
    obtain ⟨hlast, _⟩ := h
    rw [isLastQuestion] at hlast
    simpa using hlast

/-- Witness for C9: the two-question sample quiz starts at index 0 and
its index stays within bounds along a concrete interaction run. -/
theorem quiz_navigation_witness :
    twoQuestions ≠ []
      ∧ (runQuiz twoQuestions []).currentQuestionIndex = 0
      ∧ (runQuiz twoQuestions answerBoth).currentQuestionIndex
          ≤ twoQuestions.length - 1 :=
  ⟨by decide, (quiz_navigation twoQuestions (by decide)).1,
    (quiz_navigation twoQuestions (by decide)).2.1 answerBoth⟩

theorem stepQuiz_answers_inv (questions : List QuizQuestion)
    (s : QuizState) (a : QuizAction)
    (h : ∀ j, j < s.currentQuestionIndex →
        ∀ q, questions[j]? = some q →
          (jsTruthy (s.answers.lookup q.id) = true
            ∨ ∃ i, s.currentQuestionIndex ≤ i
                ∧ ∃ qi, questions[i]? = some qi ∧ qi.id = q.id)) :
    ∀ j, j < (stepQuiz questions s a).currentQuestionIndex →
      ∀ q, questions[j]? = some q →
        (jsTruthy ((stepQuiz questions s a).answers.lookup q.id) = true
          ∨ ∃ i, (stepQuiz questions s a).currentQuestionIndex ≤ i
              ∧ ∃ qi, questions[i]? = some qi ∧ qi.id = q.id) := by
  by_cases he : actionEnabled questions s a = true
  case neg =>
    simp only [stepQuiz, he, if_false]
    exact h
  case pos =>
  simp only [stepQuiz, he, if_true]
  cases a with
  | next =>
    have hsr : s.showResults = false := by
      by_contra hc
      rw [Bool.not_eq_false] at hc
      simp [actionEnabled, hc] at he
    rw [actionEnabled, hsr] at he
    simp only [Bool.false_eq_true, if_false, Bool.and_eq_true] at he
    have hcp : canProceed questions s = true := he.2
    cases hq0 : questions[s.currentQuestionIndex]? with
    | none =>
      simp only [canProceed, hq0] at hcp
      exact Bool.noConfusion hcp
    | some q0 =>
    simp only [canProceed, hq0] at hcp
    rw [applyAction]
    split_ifs with hg
    · intro j hj q hq
      have hj2 : j < s.currentQuestionIndex + 1 := hj
      show jsTruthy (s.answers.lookup q.id) = true
        ∨ ∃ i, s.currentQuestionIndex + 1 ≤ i
            ∧ ∃ qi, questions[i]? = some qi ∧ qi.id = q.id
      rcases Nat.lt_succ_iff_lt_or_eq.mp hj2 with hj3 | hj3
      · rcases h j hj3 q hq with ht | ⟨i, hi, qi, hqi, hid⟩
        · exact Or.inl ht
        · rcases Nat.lt_or_ge i (s.currentQuestionIndex + 1) with hi2 | hi2
          · have hieq : i = s.currentQuestionIndex := by omega
            subst hieq
            rw [hq0] at hqi
            have hqq : qi = q0 := (Option.some.inj hqi).symm
            subst hqq
            rw [← hid]
            exact Or.inl hcp
          · exact Or.inr ⟨i, hi2, qi, hqi, hid⟩
      · subst hj3
        rw [hq0] at hq
        have hqq : q = q0 := (Option.some.inj hq).symm
        rw [hqq]
        exact Or.inl hcp
    · intro j hj q hq
      exact h j hj q hq
  | previous =>
    rw [applyAction]
    split_ifs with hg
    · intro j hj q hq
      have hj2 : j < s.currentQuestionIndex - 1 := hj
      show jsTruthy (s.answers.lookup q.id) = true
        ∨ ∃ i, s.currentQuestionIndex - 1 ≤ i
            ∧ ∃ qi, questions[i]? = some qi ∧ qi.id = q.id
      rcases h j (by omega) q hq with ht | ⟨i, hi, qi, hqi, hid⟩
      · exact Or.inl ht
      · exact Or.inr ⟨i, by omega, qi, hqi, hid⟩
    · exact h
  | selectAnswer v =>
    rw [applyAction]
    cases hq0 : questions[s.currentQuestionIndex]? with
    | none => exact h
    | some q0 =>
      intro j hj q hq
      have hj2 : j < s.currentQuestionIndex := hj
      show jsTruthy ((setKey s.answers q0.id v).lookup q.id) = true
        ∨ ∃ i, s.currentQuestionIndex ≤ i
            ∧ ∃ qi, questions[i]? = some qi ∧ qi.id = q.id
      by_cases hid : q.id = q0.id
      · exact Or.inr ⟨s.currentQuestionIndex, Nat.le_refl _, q0, hq0,
          hid.symm⟩
      · rcases h j hj2 q hq with ht | hex
        · rw [lookup_setKey_ne _ _ _ _ hid]
          exact Or.inl ht
        · exact Or.inr hex
  | submit => exact h

theorem runQuiz_answers_inv (questions : List QuizQuestion)
    (acts : List QuizAction) :
    ∀ j, j < (runQuiz questions acts).currentQuestionIndex →
      ∀ q, questions[j]? = some q →
        (jsTruthy ((runQuiz questions acts).answers.lookup q.id) = true
          ∨ ∃ i, (runQuiz questions acts).currentQuestionIndex ≤ i
              ∧ ∃ qi, questions[i]? = some qi ∧ qi.id = q.id) := by
  suffices H : ∀ (l : List QuizAction) (s : QuizState),
      (∀ j, j < s.currentQuestionIndex →
        ∀ q, questions[j]? = some q →
          (jsTruthy (s.answers.lookup q.id) = true
            ∨ ∃ i, s.currentQuestionIndex ≤ i
                ∧ ∃ qi, questions[i]? = some qi ∧ qi.id = q.id)) →
      ∀ j, j < (l.foldl (stepQuiz questions) s).currentQuestionIndex →
        ∀ q, questions[j]? = some q →
          (jsTruthy
              ((l.foldl (stepQuiz questions) s).answers.lookup q.id)
              = true
            ∨ ∃ i,
                (l.foldl
                    (stepQuiz questions) s).currentQuestionIndex ≤ i
                  ∧ ∃ qi, questions[i]? = some qi ∧ qi.id = q.id) by
    refine H acts initQuizState ?_
    intro j hj q hq
    exact absurd hj (by simp [initQuizState])
  intro l
  induction l with
  | nil =>
    intro s hs
    simpa using hs
  | cons a t ih =>
    intro s hs
    exact ih _ (stepQuiz_answers_inv questions s a hs)

/-- C10 (implicit): in every reachable state of the quiz flow (starting
at index 0 with an empty answer map, stepping only through enabled
Next/Previous/answer-selection transitions), when the Submit action is
enabled the answers map assigns a (truthy) answer to every one of the
questions: reaching and answering the last question requires each
earlier question to have been answered, and an answer can only be
changed for the question currently displayed. -/
theorem quiz_submit_all_answered (questions : List QuizQuestion)
    (acts : List QuizAction)
    (hsub : actionEnabled questions (runQuiz questions acts)
        QuizAction.submit = true) :
    ∀ q ∈ questions,
      jsTruthy ((runQuiz questions acts).answers.lookup q.id) = true := by
  intro q hq
  have hsr : (runQuiz questions acts).showResults = false := by
    by_contra hc
    rw [Bool.not_eq_false] at hc
    simp [actionEnabled, hc] at hsub
  rw [actionEnabled, hsr] at hsub
  simp only [Bool.false_eq_true, if_false, Bool.and_eq_true] at hsub
  obtain ⟨hlast, hcp⟩ := hsub
  have hidx : (runQuiz questions acts).currentQuestionIndex
      = questions.length - 1 := by
    rw [isLastQuestion] at hlast
    simpa using hlast
  obtain ⟨j, hjlen, rfl⟩ := List.mem_iff_getElem.mp hq
  have hq0 : questions[(runQuiz questions acts).currentQuestionIndex]?
      = some questions[(runQuiz questions acts).currentQuestionIndex] :=
    List.getElem?_eq_getElem (by omega)
  simp only [canProceed, hq0] at hcp
  by_cases hj : j < (runQuiz questions acts).currentQuestionIndex
  · rcases runQuiz_answers_inv questions acts j hj _
        (List.getElem?_eq_getElem hjlen) with ht | ⟨i, hi, qi, hqi, hid⟩
    · exact ht
    · have hilen : i < questions.length :=
        (List.getElem?_eq_some.mp hqi).1
      have hieq : i = (runQuiz questions acts).currentQuestionIndex := by
        omega
      subst hieq
      rw [hq0] at hqi
      have hqq : qi = questions[(runQuiz questions
          acts).currentQuestionIndex] := (Option.some.inj hqi).symm
      rw [← hid, hqq]
      exact hcp
  · have hjeq : j = (runQuiz questions acts).currentQuestionIndex := by
      omega
    subst hjeq
    exact hcp

/-- Witness for C10: in the two-question sample run `answerBoth`, Submit
is enabled and the first question has a recorded answer. -/
theorem quiz_submit_all_answered_witness :
    actionEnabled twoQuestions (runQuiz twoQuestions answerBoth)
        QuizAction.submit = true
      ∧ (mkTF "a") ∈ twoQuestions
      ∧ jsTruthy ((runQuiz twoQuestions answerBoth).answers.lookup
          (mkTF "a").id) = true :=
  ⟨by decide, by decide,
    quiz_submit_all_answered twoQuestions answerBoth (by decide)
      (mkTF "a") (by decide)⟩

end Skillzage
